import Mathlib

/-!
Verification development for the Hierarchical Clinical Rules Engine
(clinical_rules_engine.py).  The Python code is shallowly embedded:

* Python floats are modelled as exact rationals.
* Optional values (None) are modelled with Option.
* A Python comparison between None and a number raises TypeError; the
  corresponding embedded operation returns Except.error, so every function
  that can reach such a comparison returns an Except value.
* Records stored as string-keyed dicts are modelled as structures or as
  inductive types with one constructor per dict shape; fields holding a
  formatted number carry the number itself.
-/

/-- Round-half-to-even on rationals, the convention used by the Python
round builtin. -/
def roundHalfEven (q : ℚ) : ℤ :=
  let f : ℤ := ⌊q⌋
  let r : ℚ := q - f
  if r < 1/2 then f
  else if 1/2 < r then f + 1
  else if f % 2 = 0 then f else f + 1

/-- Rounding to one decimal place, as the Python round(x, 1) used by
calculate_protein_requirements. -/
def round1 (q : ℚ) : ℚ := (roundHalfEven (q * 10) : ℚ) / 10

/-- Clinical priority levels (lower number means higher priority). -/
inductive ClinicalPriority where
  | CRITICAL_RENAL
  | CRITICAL_CARDIAC
  | HIGH_METABOLIC
  | MEDIUM_LIPID
  | LOW_ENDOCRINE
  | GENERAL_HEALTH
deriving DecidableEq

/-- Chronic kidney disease stages based on eGFR. -/
inductive CKDStage where
  | NORMAL
  | STAGE_1
  | STAGE_2
  | STAGE_3A
  | STAGE_3B
  | STAGE_4
  | STAGE_5
deriving DecidableEq

/-- A nutrient limit with rationale (dataclass NutrientLimit). -/
structure NutrientLimit where
  daily_max : Option ℚ := none
  daily_min : Option ℚ := none
  per_meal_max : Option ℚ := none
  per_meal_min : Option ℚ := none
  unit : String := "mg"
  priority : ClinicalPriority := ClinicalPriority.GENERAL_HEALTH
  rationale : String := ""
  override_reason : Option String := none
deriving DecidableEq

/-- A specific food restriction (dataclass FoodRestriction). -/
structure FoodRestriction where
  food_name : String
  severity : String
  reason : String
  priority : ClinicalPriority
  alternative_foods : List String := []
  temporal_restriction : Option String := none
deriving DecidableEq

/-- Protein requirements based on weight and conditions
(dataclass ProteinCalculation). -/
structure ProteinCalculation where
  weight_kg : ℚ
  target_grams_per_kg : ℚ
  daily_protein_min_g : ℚ
  daily_protein_max_g : ℚ
  per_meal_protein_g : ℚ
  rationale : String
deriving DecidableEq

/-- A medication-food temporal warning entry, one of the string-keyed
dicts appended to temporal_warnings. -/
structure TemporalWarning where
  medication : String
  food_interaction : String
  timing : String
  severity : String
  reason : String
deriving DecidableEq

/-- An entry of the conflict_resolutions list.  The source appends two
dict shapes: a conflict-resolution record (keys conflict,
htn_recommendation, ckd_recommendation, resolution, rationale,
alternative_htn_management) and a high-urgency alert record (keys alert,
value, action, urgency); the value field carries the measured potassium. -/
inductive KRecord where
  | conflictRec (conflict htn_recommendation ckd_recommendation resolution rationale alternative_htn_management : String)
  | alertRec (alert : String) (value : ℚ) (action urgency : String)
deriving DecidableEq

/-- True exactly on the conflict-resolution record that names the
HTN-versus-CKD potassium conflict. -/
def KRecord.isPotassiumConflictRecord : KRecord → Bool
  | .conflictRec c _ _ _ _ _ => c = "HTN vs CKD Potassium Requirements"
  | .alertRec _ _ _ _ => false

/-- True exactly on alert-shaped records. -/
def KRecord.isAlertRecord : KRecord → Bool
  | .conflictRec _ _ _ _ _ _ => false
  | .alertRec _ _ _ _ => true

/-- A safety note of the assembler.  The source stores formatted strings;
each constructor stands for one of the three f-string shapes, carrying the
interpolated lab value where the string carries one. -/
inductive SafetyNote where
  | advancedCKD
  | elevatedPotassium (value : ℚ)
  | poorGlycemicControl (hba1c : ℚ)
deriving DecidableEq

/-- True exactly on the poor-glycemic-control note. -/
def SafetyNote.isGlycemic : SafetyNote → Bool
  | .poorGlycemicControl _ => true
  | _ => false

/-- The condition flags read from the medical_conditions mapping with
conditions.get(name, False). -/
structure MedicalConditions where
  hypertension : Bool
  chronic_kidney_disease : Bool
  type2_diabetes : Bool
  hypothyroidism : Bool
deriving DecidableEq

/-- The patient profile fields the engine reads: identity, condition
flags, weight, and the lab values eGFR, serum potassium and HbA1c. -/
structure PatientProfile where
  user_id : String
  medical_conditions : MedicalConditions
  weight_kg : Option ℚ
  egfr : Option ℚ
  potassium : Option ℚ
  hba1c : Option ℚ
deriving DecidableEq

/-- Complete clinical constraints for meal generation
(dataclass ClinicalConstraint). -/
structure ClinicalConstraint where
  user_id : String
  generation_timestamp : String
  medical_conditions : MedicalConditions
  ckd_stage : Option String
  egfr : Option ℚ
  current_potassium : Option ℚ
  protein : ProteinCalculation
  sodium : NutrientLimit
  potassium : NutrientLimit
  phosphorus : NutrientLimit
  carbohydrates : NutrientLimit
  prohibited_foods : List FoodRestriction
  limited_foods : List FoodRestriction
  warning_foods : List FoodRestriction
  temporal_warnings : List TemporalWarning
  conflict_resolutions : List KRecord
  safety_notes : List SafetyNote
deriving DecidableEq

/-- The guard pattern x is not None and x is less than b, which the source
uses so that the comparison never reaches a None operand. -/
def optLt (x : Option ℚ) (b : ℚ) : Bool :=
  match x with
  | none => false
  | some v => decide (v < b)

/-- Python truthiness of an optional float: None and 0.0 are falsy.  Used
by the expression ckd_stage_name if egfr else None. -/
def pyTruthy (x : Option ℚ) : Bool :=
  match x with
  | none => false
  | some v => decide (v ≠ 0)

/-- classify_ckd_stage: stage label and CKDStage enum from eGFR; eGFR
None gives the label unknown and a null enum value. -/
def classify_ckd_stage (egfr : Option ℚ) : String × Option CKDStage :=
  match egfr with
  | none => ("unknown", none)
  | some e =>
    if 90 ≤ e then ("Stage 1-2 (Mild or Normal)", some CKDStage.STAGE_2)
    else if 60 ≤ e then ("Stage 2 (Mild)", some CKDStage.STAGE_2)
    else if 45 ≤ e then ("Stage 3a (Moderate)", some CKDStage.STAGE_3A)
    else if 30 ≤ e then ("Stage 3b (Moderate-Severe)", some CKDStage.STAGE_3B)
    else if 15 ≤ e then ("Stage 4 (Severe)", some CKDStage.STAGE_4)
    else ("Stage 5 (Kidney Failure)", some CKDStage.STAGE_5)

/-- Default potassium limit (general population branch). -/
def defaultPotassiumLimit : NutrientLimit :=
  { daily_max := some 4700
    daily_min := some 2000
    per_meal_max := some 1500
    per_meal_min := none
    unit := "mg"
    priority := ClinicalPriority.GENERAL_HEALTH
    rationale := "General population recommendation"
    override_reason := none }

/-- Potassium limit of the hypertension-alone branch. -/
def htnPotassiumLimit : NutrientLimit :=
  { daily_max := none
    daily_min := some 4700
    per_meal_max := none
    per_meal_min := none
    unit := "mg"
    priority := ClinicalPriority.CRITICAL_CARDIAC
    rationale := "HTN: DASH diet recommends high potassium for blood pressure control"
    override_reason := none }

/-- Potassium limit of the renal hard-cap branch, parameterised by the
stage label interpolated into the rationale. -/
def renalPotassiumLimit (stage_name : String) : NutrientLimit :=
  { daily_max := some 2000
    daily_min := none
    per_meal_max := some 650
    per_meal_min := none
    unit := "mg"
    priority := ClinicalPriority.CRITICAL_RENAL
    rationale := "CKD " ++ stage_name ++ ": Strict potassium restriction to prevent hyperkalemia"
    override_reason := some "Renal safety overrides HTN potassium recommendation" }

/-- The conflict-resolution record emitted when hypertension is present
on the renal branch. -/
def htnCkdPotassiumConflict : KRecord :=
  KRecord.conflictRec
    "HTN vs CKD Potassium Requirements"
    "High potassium (≥4700 mg/day) for blood pressure control"
    "Low potassium (≤2000 mg/day) to prevent hyperkalemia"
    "CKD restriction applied (Priority 1: Renal Safety)"
    "Hyperkalemia is life-threatening in CKD. Cardiac arrest risk > HTN benefit."
    "Use DASH diet principles with low-K foods, ACE inhibitors"

/-- The high-urgency alert record appended when serum potassium exceeds
5.0 on the renal branch; value carries the measured potassium. -/
def elevatedKAlert (k : ℚ) : KRecord :=
  KRecord.alertRec
    "Elevated Serum Potassium"
    k
    "Reduced potassium limit to 1500 mg/day"
    "HIGH - Risk of cardiac arrhythmia"

/-- The error marker for a Python comparison whose left operand is None,
a TypeError in Python 3. -/
def noneComparisonError : String :=
  "TypeError: comparison not supported between NoneType and float"

/-- resolve_potassium_conflict.  The elif guard has_htn and (not has_ckd
or egfr greater-or-equal 60) evaluates egfr against 60 whenever has_htn
and has_ckd are both true, so with eGFR None that path raises TypeError,
modelled as Except.error. -/
def resolve_potassium_conflict (has_htn has_ckd : Bool)
    (egfr current_potassium : Option ℚ) :
    Except String (NutrientLimit × List KRecord) :=
  if has_ckd && optLt egfr 60 then
    let base := renalPotassiumLimit (classify_ckd_stage egfr).1
    let recs := if has_htn then [htnCkdPotassiumConflict] else []
    match current_potassium with
    | some k =>
      if 5 < k then
        Except.ok
          ({ base with
              daily_max := some 1500
              rationale := base.rationale ++ " (Current K+: " ++ toString k ++ " mEq/L - Elevated)" },
            recs ++ [elevatedKAlert k])
      else Except.ok (base, recs)
    | none => Except.ok (base, recs)
  else if has_htn then
    if !has_ckd then Except.ok (htnPotassiumLimit, [])
    else
      match egfr with
      | none => Except.error noneComparisonError
      | some e =>
        if 60 ≤ e then Except.ok (htnPotassiumLimit, [])
        else Except.ok (defaultPotassiumLimit, [])
  else Except.ok (defaultPotassiumLimit, [])

/-- The prohibited-foods list of the CKD branch of
resolve_food_restrictions. -/
def ckdProhibitedFoods : List FoodRestriction :=
  [ { food_name := "Potatoes (all varieties)"
      severity := "prohibited"
      reason := "High potassium content (425 mg/100g). CKD Stage 3-5 requires K+ restriction."
      priority := ClinicalPriority.CRITICAL_RENAL
      alternative_foods := ["cauliflower", "turnips", "radishes"]
      temporal_restriction := none },
    { food_name := "Sweet Potatoes"
      severity := "prohibited"
      reason := "Very high potassium (475 mg/100g)"
      priority := ClinicalPriority.CRITICAL_RENAL
      alternative_foods := ["butternut_squash", "carrots"]
      temporal_restriction := none },
    { food_name := "Bananas"
      severity := "prohibited"
      reason := "High potassium (358 mg/100g)"
      priority := ClinicalPriority.CRITICAL_RENAL
      alternative_foods := ["berries", "apples", "grapes"]
      temporal_restriction := none } ]

/-- The limited-foods list of the CKD branch of
resolve_food_restrictions. -/
def ckdLimitedFoods : List FoodRestriction :=
  [ { food_name := "Tomatoes"
      severity := "limited"
      reason := "Moderate potassium (237 mg/100g). Limit to <50g per meal"
      priority := ClinicalPriority.CRITICAL_RENAL
      alternative_foods := ["cucumber", "bell_peppers"]
      temporal_restriction := none },
    { food_name := "Spinach"
      severity := "limited"
      reason := "Very high potassium (558 mg/100g). Limit to <30g per meal"
      priority := ClinicalPriority.CRITICAL_RENAL
      alternative_foods := ["lettuce", "bok_choy"]
      temporal_restriction := none } ]

/-- The potato warning of the hypertension-alone branch of
resolve_food_restrictions. -/
def htnPotatoWarning : FoodRestriction :=
  { food_name := "Potatoes (especially fried/processed)"
    severity := "warning"
    reason := "Often prepared with high sodium. Prefer baked/steamed without salt."
    priority := ClinicalPriority.CRITICAL_CARDIAC
    alternative_foods := ["sweet_potatoes_baked", "cauliflower_mash"]
    temporal_restriction := none }

/-- The soy warning emitted for hypothyroidism. -/
def soyRestriction : FoodRestriction :=
  { food_name := "Soy Products (tofu, soy milk, edamame)"
    severity := "warning"
    reason := "Soy interferes with levothyroxine absorption (reduces efficacy by up to 50%)"
    priority := ClinicalPriority.LOW_ENDOCRINE
    alternative_foods := ["almond_milk", "oat_milk", "chicken", "fish"]
    temporal_restriction := some "Consume ≥4 hours after levothyroxine dose" }

/-- The cruciferous-vegetable conditional warning emitted for
hypothyroidism. -/
def cruciferousRestriction : FoodRestriction :=
  { food_name := "Cabbage, Broccoli, Cauliflower (Cruciferous vegetables)"
    severity := "warning"
    reason := "Goitrogenic effect only significant with iodine deficiency. Generally safe when cooked."
    priority := ClinicalPriority.LOW_ENDOCRINE
    alternative_foods := []
    temporal_restriction := some "Only restrict if iodine deficiency confirmed" }

/-- resolve_food_restrictions.  Inside the outer guard the source checks
has_ckd and egfr less than 60 without a None guard, so with has_htn and
has_ckd true and eGFR None the comparison raises TypeError, modelled as
Except.error.  The hypothyroid warnings are appended to whatever the
first block produced. -/
def resolve_food_restrictions (has_htn has_ckd : Bool) (egfr : Option ℚ)
    (has_hypothyroidism : Bool) :
    Except String (List FoodRestriction × List FoodRestriction × List FoodRestriction) :=
  let step1 : Except String (List FoodRestriction × List FoodRestriction × List FoodRestriction) :=
    if has_htn || (has_ckd && optLt egfr 60) then
      if has_ckd then
        match egfr with
        | none => Except.error noneComparisonError
        | some e =>
          if e < 60 then Except.ok (ckdProhibitedFoods, ckdLimitedFoods, [])
          else if has_htn then Except.ok ([], [], [htnPotatoWarning])
          else Except.ok ([], [], [])
      else if has_htn then Except.ok ([], [], [htnPotatoWarning])
      else Except.ok ([], [], [])
    else Except.ok ([], [], [])
  match step1 with
  | Except.error m => Except.error m
  | Except.ok (prohibited, limited, warns) =>
    if has_hypothyroidism then
      Except.ok (prohibited, limited, warns ++ [soyRestriction, cruciferousRestriction])
    else Except.ok (prohibited, limited, warns)

/-- The note appended to the protein rationale when the reference weight
is used. -/
def referenceWeightNote : String :=
  " (using reference weight - actual weight unavailable)"

/-- calculate_protein_requirements.  The weight defaults to 70 kg; the
branch picks the grams-per-kg range and the rationale; the daily values
and the per-meal value (midpoint of the unrounded daily range divided by
3) are rounded to one decimal; target_grams_per_kg is not rounded. -/
def calculate_protein_requirements (weight_kg : Option ℚ)
    (has_ckd has_diabetes : Bool) (egfr : Option ℚ) : ProteinCalculation :=
  let w : ℚ := weight_kg.getD 70
  let weight_note : String := if weight_kg.isNone then referenceWeightNote else ""
  let sel : ℚ × ℚ × String :=
    if has_ckd && has_diabetes && optLt egfr 60 then
      (6/10, 8/10,
        "CKD with Diabetes: Moderate protein restriction (0.6-0.8 g/kg/day) to slow CKD progression while maintaining adequate nutrition" ++ weight_note)
    else if has_ckd && optLt egfr 45 then
      (6/10, 3/4,
        "Advanced CKD (Stage 3b-5): Protein restriction (0.6-0.75 g/kg/day) to reduce uremic toxins" ++ weight_note)
    else
      (8/10, 1, "Standard protein intake (0.8-1.0 g/kg/day)" ++ weight_note)
  let daily_min : ℚ := w * sel.1
  let daily_max : ℚ := w * sel.2.1
  let per_meal : ℚ := (daily_min + daily_max) / 2 / 3
  { weight_kg := w
    target_grams_per_kg := (sel.1 + sel.2.1) / 2
    daily_protein_min_g := round1 daily_min
    daily_protein_max_g := round1 daily_max
    per_meal_protein_g := round1 per_meal
    rationale := sel.2.2 }

/-- calculate_sodium_limit. -/
def calculate_sodium_limit (has_htn has_ckd : Bool) (egfr : Option ℚ) :
    NutrientLimit :=
  if has_htn && (has_ckd && optLt egfr 60) then
    { daily_max := some 1500, per_meal_max := some 500, unit := "mg"
      priority := ClinicalPriority.CRITICAL_CARDIAC
      rationale := "HTN + CKD: Strict sodium restriction (AHA/KDOQI)" }
  else if has_htn then
    { daily_max := some 1500, per_meal_max := some 500, unit := "mg"
      priority := ClinicalPriority.CRITICAL_CARDIAC
      rationale := "HTN: Sodium restriction for blood pressure control (AHA)" }
  else if has_ckd then
    { daily_max := some 2000, per_meal_max := some 650, unit := "mg"
      priority := ClinicalPriority.CRITICAL_RENAL
      rationale := "CKD: Moderate sodium restriction (KDOQI)" }
  else
    { daily_max := some 2300, per_meal_max := some 750, unit := "mg"
      priority := ClinicalPriority.GENERAL_HEALTH
      rationale := "General population recommendation (DRI)" }

/-- calculate_phosphorus_limit. -/
def calculate_phosphorus_limit (has_ckd : Bool) (egfr : Option ℚ) :
    NutrientLimit :=
  match egfr with
  | some e =>
    if has_ckd then
      if e < 30 then
        { daily_max := some 800, per_meal_max := some 265, unit := "mg"
          priority := ClinicalPriority.CRITICAL_RENAL
          rationale := "CKD Stage 4-5: Strict phosphorus restriction to prevent bone disease" }
      else if e < 60 then
        { daily_max := some 1000, per_meal_max := some 330, unit := "mg"
          priority := ClinicalPriority.CRITICAL_RENAL
          rationale := "CKD Stage 3: Moderate phosphorus restriction" }
      else
        { daily_max := some 1250, per_meal_max := some 415, unit := "mg"
          priority := ClinicalPriority.GENERAL_HEALTH
          rationale := "General population recommendation" }
    else
      { daily_max := some 1250, per_meal_max := some 415, unit := "mg"
        priority := ClinicalPriority.GENERAL_HEALTH
        rationale := "General population recommendation" }
  | none =>
    { daily_max := some 1250, per_meal_max := some 415, unit := "mg"
      priority := ClinicalPriority.GENERAL_HEALTH
      rationale := "General population recommendation" }

/-- The fixed carbohydrate limit built in generate_clinical_constraints. -/
def diabetesCarbLimit : NutrientLimit :=
  { daily_max := none, daily_min := none
    per_meal_max := some 60, per_meal_min := none, unit := "g"
    priority := ClinicalPriority.HIGH_METABOLIC
    rationale := "Diabetes: Distribute carbs evenly across meals, prefer low GI (ADA)" }

/-- The temporal warning appended when hypothyroidism is flagged. -/
def levothyroxineSoyWarning : TemporalWarning :=
  { medication := "Levothyroxine"
    food_interaction := "Soy products"
    timing := "Take levothyroxine on empty stomach; wait ≥4 hours before consuming soy"
    severity := "MEDIUM"
    reason := "Soy reduces levothyroxine absorption by up to 50%" }

/-- The safety-note scan of the assembler: eGFR below 30 gives a critical
CKD note; serum potassium above 5.5 gives an arrhythmia note; the
glycemic note requires the type2_diabetes flag and HbA1c (defaulted to 0
when missing) above 9.0. -/
def assembleSafetyNotes (egfr current_k : Option ℚ) (has_diabetes : Bool)
    (hba1c : Option ℚ) : List SafetyNote :=
  (match egfr with
    | some e => if e < 30 then [SafetyNote.advancedCKD] else []
    | none => []) ++
  (match current_k with
    | some k => if 11/2 < k then [SafetyNote.elevatedPotassium k] else []
    | none => []) ++
  (if has_diabetes && decide (9 < hba1c.getD 0) then
    [SafetyNote.poorGlycemicControl (hba1c.getD 0)]
  else [])

/-- generate_clinical_constraints: classify the CKD stage, run the
potassium and food-restriction resolvers (propagating their TypeError as
an error), compute protein, sodium, phosphorus and the carbohydrate
limit, derive temporal warnings and safety notes, and build the
ClinicalConstraint.  The ckd_stage field uses the Python truthiness test
of the raw eGFR value. -/
def generate_clinical_constraints (now : String) (p : PatientProfile) :
    Except String ClinicalConstraint :=
  match resolve_potassium_conflict p.medical_conditions.hypertension
      p.medical_conditions.chronic_kidney_disease p.egfr p.potassium with
  | Except.error m => Except.error m
  | Except.ok (potassium_limit, k_conflicts) =>
    match resolve_food_restrictions p.medical_conditions.hypertension
        p.medical_conditions.chronic_kidney_disease p.egfr
        p.medical_conditions.hypothyroidism with
    | Except.error m => Except.error m
    | Except.ok (prohibited, limited, warning_foods) =>
      Except.ok
        { user_id := p.user_id
          generation_timestamp := now
          medical_conditions := p.medical_conditions
          ckd_stage :=
            if pyTruthy p.egfr then some (classify_ckd_stage p.egfr).1 else none
          egfr := p.egfr
          current_potassium := p.potassium
          protein := calculate_protein_requirements p.weight_kg
            p.medical_conditions.chronic_kidney_disease
            p.medical_conditions.type2_diabetes p.egfr
          sodium := calculate_sodium_limit p.medical_conditions.hypertension
            p.medical_conditions.chronic_kidney_disease p.egfr
          potassium := potassium_limit
          phosphorus := calculate_phosphorus_limit
            p.medical_conditions.chronic_kidney_disease p.egfr
          carbohydrates := diabetesCarbLimit
          prohibited_foods := prohibited
          limited_foods := limited
          warning_foods := warning_foods
          temporal_warnings :=
            if p.medical_conditions.hypothyroidism then [levothyroxineSoyWarning] else []
          conflict_resolutions := k_conflicts
          safety_notes := assembleSafetyNotes p.egfr p.potassium
            p.medical_conditions.type2_diabetes p.hba1c }

/-- Observation for the renal potassium cap: daily max present and at
most 2000, per-meal max 650, priority CriticalRenal. -/
def potassiumRenalCapOk (c : ClinicalConstraint) : Bool :=
  (match c.potassium.daily_max with
    | some m => decide (m ≤ 2000)
    | none => false)
  && decide (c.potassium.per_meal_max = some 650)
  && decide (c.potassium.priority = ClinicalPriority.CRITICAL_RENAL)

/-- Number of conflict-resolution records naming the potassium conflict. -/
def potassiumConflictCount (c : ClinicalConstraint) : Nat :=
  (c.conflict_resolutions.filter KRecord.isPotassiumConflictRecord).length

/-- Observation for the elevated-potassium tightening: daily max 1500 and
exactly one alert record, carrying the measured value and the arrhythmia
urgency, distinct in shape from every conflict-resolution record. -/
def elevatedAlertOk (k : ℚ) (c : ClinicalConstraint) : Bool :=
  decide (c.potassium.daily_max = some 1500)
  && decide (c.conflict_resolutions.filter KRecord.isAlertRecord = [elevatedKAlert k])

/-- Observation for the hypothyroidism-only scenario: one temporal
warning for levothyroxine and soy, two warning-severity food
restrictions with the documented temporal texts, and empty prohibited
and limited lists. -/
def hypothyroidOutputsOk (c : ClinicalConstraint) : Bool :=
  decide (c.temporal_warnings = [levothyroxineSoyWarning])
  && decide (c.prohibited_foods = ([] : List FoodRestriction))
  && decide (c.limited_foods = ([] : List FoodRestriction))
  && decide (c.warning_foods = [soyRestriction, cruciferousRestriction])
  && decide (soyRestriction.severity = "warning")
  && decide (cruciferousRestriction.severity = "warning")
  && decide (soyRestriction.temporal_restriction
      = some "Consume ≥4 hours after levothyroxine dose")
  && decide (levothyroxineSoyWarning.timing
      = "Take levothyroxine on empty stomach; wait ≥4 hours before consuming soy")

/-- Profile with CKD, eGFR 40 and hypertension, used as a concrete
renal-override instance. -/
def profileRenalHtn : PatientProfile :=
  { user_id := "renal-htn"
    medical_conditions :=
      { hypertension := true, chronic_kidney_disease := true
        type2_diabetes := false, hypothyroidism := false }
    weight_kg := none, egfr := some 40, potassium := none, hba1c := none }

/-- Profile with hypertension and CKD flagged but eGFR absent, the input
on which the potassium resolver reaches a None comparison. -/
def profileHtnCkdNoEgfr : PatientProfile :=
  { user_id := "htn-ckd-no-egfr"
    medical_conditions :=
      { hypertension := true, chronic_kidney_disease := true
        type2_diabetes := false, hypothyroidism := false }
    weight_kg := none, egfr := none, potassium := none, hba1c := none }

/-- Profile with CKD, eGFR 40, hypertension and serum potassium 5.2. -/
def profileRenalHtnHighK : PatientProfile :=
  { user_id := "renal-htn-high-k"
    medical_conditions :=
      { hypertension := true, chronic_kidney_disease := true
        type2_diabetes := false, hypothyroidism := false }
    weight_kg := none, egfr := some 40, potassium := some (26/5), hba1c := none }

/-- Profile with CKD, eGFR 40, no hypertension and serum potassium 5.2. -/
def profileRenalHighK : PatientProfile :=
  { user_id := "renal-high-k"
    medical_conditions :=
      { hypertension := false, chronic_kidney_disease := true
        type2_diabetes := false, hypothyroidism := false }
    weight_kg := none, egfr := some 40, potassium := some (26/5), hba1c := none }

/-- Profile with CKD flagged and a known eGFR of exactly 0. -/
def profileEgfrZero : PatientProfile :=
  { user_id := "egfr-zero"
    medical_conditions :=
      { hypertension := false, chronic_kidney_disease := true
        type2_diabetes := false, hypothyroidism := false }
    weight_kg := none, egfr := some 0, potassium := none, hba1c := none }

/-- Profile with HbA1c 10 but the diabetes flag unset. -/
def profileHighA1cNoDm : PatientProfile :=
  { user_id := "high-a1c-no-dm"
    medical_conditions :=
      { hypertension := false, chronic_kidney_disease := false
        type2_diabetes := false, hypothyroidism := false }
    weight_kg := none, egfr := none, potassium := none, hba1c := some 10 }

/-- Profile with hypothyroidism and no other condition flags. -/
def profileHypothyroidOnly : PatientProfile :=
  { user_id := "hypothyroid-only"
    medical_conditions :=
      { hypertension := false, chronic_kidney_disease := false
        type2_diabetes := false, hypothyroidism := true }
    weight_kg := none, egfr := none, potassium := none, hba1c := none }

/-- Evaluation rule for roundHalfEven below the halfway point. -/
theorem roundHalfEven_eq_low (q : ℚ) (z : ℤ) (h1 : (z : ℚ) ≤ q)
    (h2 : q < (z : ℚ) + 1/2) : roundHalfEven q = z := by
  have hf : ⌊q⌋ = z := Int.floor_eq_iff.mpr ⟨h1, by linarith⟩
  unfold roundHalfEven
  rw [hf, if_pos (by linarith)]

/-- Evaluation rule for roundHalfEven above the halfway point. -/
theorem roundHalfEven_eq_high (q : ℚ) (z : ℤ) (h1 : (z : ℚ) + 1/2 < q)
    (h2 : q < (z : ℚ) + 1) : roundHalfEven q = z + 1 := by
  have hf : ⌊q⌋ = z := Int.floor_eq_iff.mpr ⟨by linarith, h2⟩
  unfold roundHalfEven
  rw [hf, if_neg (by linarith), if_pos (by linarith)]

/-- Evaluation rule for roundHalfEven at a halfway point with odd floor. -/
theorem roundHalfEven_eq_tie_odd (q : ℚ) (z : ℤ) (h : q = (z : ℚ) + 1/2)
    (hodd : z % 2 = 1) : roundHalfEven q = z + 1 := by
  have hf : ⌊q⌋ = z := Int.floor_eq_iff.mpr ⟨by linarith, by linarith⟩
  unfold roundHalfEven
  rw [hf, if_neg (by rw [h]; norm_num), if_neg (by rw [h]; norm_num),
    if_neg (by omega)]

/-- Evaluation rule for round1 below the halfway point. -/
theorem round1_eq_low (q : ℚ) (z : ℤ) (h1 : (z : ℚ) ≤ q * 10)
    (h2 : q * 10 < (z : ℚ) + 1/2) : round1 q = (z : ℚ) / 10 := by
  rw [round1, roundHalfEven_eq_low (q * 10) z h1 h2]

/-- Evaluation rule for round1 above the halfway point. -/
theorem round1_eq_high (q : ℚ) (z : ℤ) (h1 : (z : ℚ) + 1/2 < q * 10)
    (h2 : q * 10 < (z : ℚ) + 1) : round1 q = ((z : ℚ) + 1) / 10 := by
  rw [round1, roundHalfEven_eq_high (q * 10) z h1 h2]
  push_cast
  ring

/-- Evaluation rule for round1 at a halfway point with odd tenths. -/
theorem round1_eq_tie_odd (q : ℚ) (z : ℤ) (h : q * 10 = (z : ℚ) + 1/2)
    (hodd : z % 2 = 1) : round1 q = ((z : ℚ) + 1) / 10 := by
  rw [round1, roundHalfEven_eq_tie_odd (q * 10) z h hodd]
  push_cast
  ring

/-- Resolver output on the renal branch: the hard cap with its per-meal
650 limit and CriticalRenal priority, one conflict record exactly when
hypertension is flagged, daily max tightened to 1500 with one alert
record exactly when the measured potassium exceeds 5. -/
theorem potassium_renal_spec (htn : Bool) (e : ℚ) (k : Option ℚ) (he : e < 60) :
    ∃ l recs, resolve_potassium_conflict htn true (some e) k = Except.ok (l, recs) ∧
      (l.daily_max = some 2000 ∨ l.daily_max = some 1500) ∧
      l.per_meal_max = some 650 ∧
      l.priority = ClinicalPriority.CRITICAL_RENAL ∧
      l.override_reason = some "Renal safety overrides HTN potassium recommendation" ∧
      (recs.filter KRecord.isPotassiumConflictRecord).length = (if htn then 1 else 0) ∧
      (∀ kv, k = some kv → 5 < kv →
        l.daily_max = some 1500 ∧ recs.filter KRecord.isAlertRecord = [elevatedKAlert kv]) := by
  unfold resolve_potassium_conflict
  have hg : (true && optLt (some e) 60) = true := by
    simp [optLt, he]
  rw [hg]
  simp only [if_true]
  rcases k with _ | kv
  · refine ⟨_, _, rfl, Or.inl rfl, rfl, rfl, rfl, ?_, ?_⟩
    · cases htn <;>
        simp [List.filter, htnCkdPotassiumConflict, KRecord.isPotassiumConflictRecord]
    · intro kv hkv
      exact absurd hkv (by simp)
  · dsimp only
    by_cases h5 : 5 < kv
    · rw [if_pos h5]
      refine ⟨_, _, rfl, Or.inr rfl, rfl, rfl, rfl, ?_, ?_⟩
      · cases htn <;>
          simp [List.filter, List.filter_append, htnCkdPotassiumConflict,
            KRecord.isPotassiumConflictRecord, elevatedKAlert, KRecord.isAlertRecord]
      · intro kv2 hkv2 _
        have : kv2 = kv := by injection hkv2.symm
        subst this
        refine ⟨rfl, ?_⟩
        cases htn <;>
          simp [List.filter, List.filter_append, htnCkdPotassiumConflict,
            KRecord.isPotassiumConflictRecord, elevatedKAlert, KRecord.isAlertRecord]
    · rw [if_neg h5]
      refine ⟨_, _, rfl, Or.inl rfl, rfl, rfl, rfl, ?_, ?_⟩
      · cases htn <;>
          simp [List.filter, htnCkdPotassiumConflict, KRecord.isPotassiumConflictRecord]
      · intro kv2 hkv2 h5b
        have : kv2 = kv := by injection hkv2.symm
        subst this
        exact absurd h5b h5

/-- Resolver output of the food-restriction resolver on the CKD branch
with a known eGFR below 60: the three prohibitions, the two limited
foods, and only the hypothyroid warnings. -/
theorem food_renal_eq (htn : Bool) (e : ℚ) (hypo : Bool) (he : e < 60) :
    resolve_food_restrictions htn true (some e) hypo =
      Except.ok (ckdProhibitedFoods, ckdLimitedFoods,
        if hypo then [soyRestriction, cruciferousRestriction] else []) := by
  unfold resolve_food_restrictions
  have hg : (htn || (true && optLt (some e) 60)) = true := by
    simp [optLt, he]
  rw [hg]
  simp only [if_true]
  rw [if_pos he]
  cases hypo <;> rfl

/-- Resolver output of the food-restriction resolver when neither
hypertension nor CKD is flagged. -/
theorem food_no_htn_no_ckd_eq (egfr : Option ℚ) (hypo : Bool) :
    resolve_food_restrictions false false egfr hypo =
      Except.ok (([] : List FoodRestriction), ([] : List FoodRestriction),
        if hypo then [soyRestriction, cruciferousRestriction] else []) := by
  cases hypo <;> rfl

/-- Resolver output of the potassium resolver when neither hypertension
nor CKD is flagged. -/
theorem potassium_no_htn_no_ckd_eq (egfr k : Option ℚ) :
    resolve_potassium_conflict false false egfr k =
      Except.ok (defaultPotassiumLimit, []) := rfl

/-- Shape of the assembled constraint when both fallible resolvers
succeed. -/
theorem generate_eq_ok (now uid : String) (mc : MedicalConditions)
    (w egfr k hb : Option ℚ) (l : NutrientLimit) (recs : List KRecord)
    (pr li wa : List FoodRestriction)
    (h1 : resolve_potassium_conflict mc.hypertension mc.chronic_kidney_disease
      egfr k = Except.ok (l, recs))
    (h2 : resolve_food_restrictions mc.hypertension mc.chronic_kidney_disease
      egfr mc.hypothyroidism = Except.ok (pr, li, wa)) :
    generate_clinical_constraints now ⟨uid, mc, w, egfr, k, hb⟩ =
      Except.ok
        { user_id := uid
          generation_timestamp := now
          medical_conditions := mc
          ckd_stage := if pyTruthy egfr then some (classify_ckd_stage egfr).1 else none
          egfr := egfr
          current_potassium := k
          protein := calculate_protein_requirements w mc.chronic_kidney_disease
            mc.type2_diabetes egfr
          sodium := calculate_sodium_limit mc.hypertension mc.chronic_kidney_disease egfr
          potassium := l
          phosphorus := calculate_phosphorus_limit mc.chronic_kidney_disease egfr
          carbohydrates := diabetesCarbLimit
          prohibited_foods := pr
          limited_foods := li
          warning_foods := wa
          temporal_warnings :=
            if mc.hypothyroidism then [levothyroxineSoyWarning] else []
          conflict_resolutions := recs
          safety_notes := assembleSafetyNotes egfr k mc.type2_diabetes hb } := by
  unfold generate_clinical_constraints
  dsimp only
  rw [h1, h2]

/-- The safety-note list carries a glycemic note exactly when the
diabetes flag is set and the defaulted HbA1c exceeds 9. -/
theorem any_glycemic_eq (egfr k : Option ℚ) (dm : Bool) (hb : Option ℚ) :
    (assembleSafetyNotes egfr k dm hb).any SafetyNote.isGlycemic =
      (dm && decide (9 < hb.getD 0)) := by
  unfold assembleSafetyNotes
  rcases egfr with _ | e <;> rcases k with _ | kv <;>
    simp only [List.any_append, List.any_nil, Bool.false_or] <;>
    split_ifs <;>
    simp_all [SafetyNote.isGlycemic]

/-- Claim C1: for every patient profile with the chronic_kidney_disease
flag true and a known eGFR strictly below 60, the potassium limit carried
into the assembled ClinicalConstraint has daily max at most 2000 mg,
per-meal max 650 mg and priority CriticalRenal, regardless of the
hypertension flag. -/
theorem renal_override_caps_potassium (now : String) (p : PatientProfile) (e : ℚ)
    (hckd : p.medical_conditions.chronic_kidney_disease = true)
    (hegfr : p.egfr = some e) (he : e < 60) :
    Except.map potassiumRenalCapOk (generate_clinical_constraints now p) =
      Except.ok true := by
  obtain ⟨uid, mc, w, egfr, k, hb⟩ := p
  obtain ⟨htn, ckd, dm, hypo⟩ := mc
  dsimp only at hckd hegfr
  subst hckd hegfr
  obtain ⟨l, recs, h1, hdm2000, hpm, hpri, -, -, -⟩ :=
    potassium_renal_spec htn e k he
  rw [generate_eq_ok now uid ⟨htn, true, dm, hypo⟩ w (some e) k hb l recs
    ckdProhibitedFoods ckdLimitedFoods
    (if hypo then [soyRestriction, cruciferousRestriction] else [])
    h1 (food_renal_eq htn e hypo he)]
  rcases hdm2000 with h | h <;>
    simp [Except.map, potassiumRenalCapOk, h, hpm, hpri,
      show (1500 : ℚ) ≤ 2000 by norm_num]

/-- Witness for claim C1 at the concrete profile with hypertension, CKD
and eGFR 40. -/
theorem renal_override_caps_potassium_witness :
    profileRenalHtn.medical_conditions.chronic_kidney_disease = true ∧
    profileRenalHtn.egfr = some 40 ∧ (40 : ℚ) < 60 ∧
    Except.map potassiumRenalCapOk
      (generate_clinical_constraints "t" profileRenalHtn) = Except.ok true :=
  ⟨rfl, rfl, by norm_num,
    renal_override_caps_potassium "t" profileRenalHtn 40 rfl rfl (by norm_num)⟩

/-- Claim C2 (code bug): with hypertension and chronic_kidney_disease
both flagged and eGFR absent, the potassium resolver evaluates an
ordering comparison on None and raises TypeError instead of degrading to
the hypertension branch, the food-restriction resolver likewise raises,
and the assembler propagates the error. -/
theorem missing_egfr_comparison_raises :
    resolve_potassium_conflict true true none none =
      Except.error noneComparisonError ∧
    resolve_food_restrictions true true none false =
      Except.error noneComparisonError ∧
    generate_clinical_constraints "t" profileHtnCkdNoEgfr =
      Except.error noneComparisonError :=
  ⟨rfl, rfl, rfl⟩

/-- Claim C3: with CKD, a known eGFR below 60 and hypertension all
present, the assembled constraint carries exactly one conflict-resolution
record naming the potassium conflict, for every value of the current
serum potassium. -/
theorem single_potassium_conflict_record (now : String) (p : PatientProfile) (e : ℚ)
    (hckd : p.medical_conditions.chronic_kidney_disease = true)
    (hegfr : p.egfr = some e) (he : e < 60)
    (hhtn : p.medical_conditions.hypertension = true) :
    Except.map potassiumConflictCount (generate_clinical_constraints now p) =
      Except.ok 1 := by
  obtain ⟨uid, mc, w, egfr, k, hb⟩ := p
  obtain ⟨htn, ckd, dm, hypo⟩ := mc
  dsimp only at hckd hegfr hhtn
  subst hckd hegfr hhtn
  obtain ⟨l, recs, h1, -, -, -, -, hcount, -⟩ :=
    potassium_renal_spec true e k he
  rw [generate_eq_ok now uid ⟨true, true, dm, hypo⟩ w (some e) k hb l recs
    ckdProhibitedFoods ckdLimitedFoods
    (if hypo then [soyRestriction, cruciferousRestriction] else [])
    h1 (food_renal_eq true e hypo he)]
  simp only [if_true] at hcount
  simp [Except.map, potassiumConflictCount, hcount]

/-- Witness for claim C3 at the concrete profile with hypertension, CKD,
eGFR 40 and serum potassium 5.2 (above the 5.0 threshold). -/
theorem single_potassium_conflict_record_witness :
    profileRenalHtnHighK.medical_conditions.hypertension = true ∧
    profileRenalHtnHighK.potassium = some (26/5) ∧ (5 : ℚ) < 26/5 ∧ (40 : ℚ) < 60 ∧
    Except.map potassiumConflictCount
      (generate_clinical_constraints "t" profileRenalHtnHighK) = Except.ok 1 :=
  ⟨rfl, rfl, by norm_num, by norm_num,
    single_potassium_conflict_record "t" profileRenalHtnHighK 40 rfl rfl
      (by norm_num) rfl⟩

/-- Claim C4: on the renal branch with a measured serum potassium above
5.0 the resolved daily max is tightened to 1500 mg and exactly one
high-urgency alert record, of a shape distinct from the
conflict-resolution records and naming the measured value and the
arrhythmia risk, is appended. -/
theorem elevated_potassium_tightens_cap (now : String) (p : PatientProfile) (e kv : ℚ)
    (hckd : p.medical_conditions.chronic_kidney_disease = true)
    (hegfr : p.egfr = some e) (he : e < 60)
    (hk : p.potassium = some kv) (h5 : 5 < kv) :
    Except.map (elevatedAlertOk kv) (generate_clinical_constraints now p) =
      Except.ok true := by
  obtain ⟨uid, mc, w, egfr, k, hb⟩ := p
  obtain ⟨htn, ckd, dm, hypo⟩ := mc
  dsimp only at hckd hegfr hk
  subst hckd hegfr hk
  obtain ⟨l, recs, h1, -, -, -, -, -, helev⟩ :=
    potassium_renal_spec htn e (some kv) he
  obtain ⟨hdm, halert⟩ := helev kv rfl h5
  rw [generate_eq_ok now uid ⟨htn, true, dm, hypo⟩ w (some e) (some kv) hb l recs
    ckdProhibitedFoods ckdLimitedFoods
    (if hypo then [soyRestriction, cruciferousRestriction] else [])
    h1 (food_renal_eq htn e hypo he)]
  simp [Except.map, elevatedAlertOk, hdm, halert]

/-- Witness for claim C4 at the concrete profile with CKD, eGFR 40 and
serum potassium 5.2. -/
theorem elevated_potassium_tightens_cap_witness :
    profileRenalHighK.potassium = some (26/5) ∧ (5 : ℚ) < 26/5 ∧ (40 : ℚ) < 60 ∧
    Except.map (elevatedAlertOk (26/5))
      (generate_clinical_constraints "t" profileRenalHighK) = Except.ok true :=
  ⟨rfl, by norm_num, by norm_num,
    elevated_potassium_tightens_cap "t" profileRenalHighK 40 (26/5) rfl rfl
      (by norm_num) rfl (by norm_num)⟩

/-- Claim C5 counterexample: at weight 70.47 kg on the default branch the
code computes per-meal 21.1 from the unrounded daily bounds, while the
formula applied to the returned (rounded) bounds gives midpoint 21.15,
which rounds to 21.2; so the claim with rounded bounds in the formula
fails. -/
theorem per_meal_rounded_bounds_cex :
    (calculate_protein_requirements (some (7047/100)) false false none).per_meal_protein_g
      ≠ round1
        (((calculate_protein_requirements (some (7047/100)) false false none).daily_protein_min_g
          + (calculate_protein_requirements (some (7047/100)) false false none).daily_protein_max_g)
          / 2 / 3) := by
  have hlow : (calculate_protein_requirements (some (7047/100)) false false none).per_meal_protein_g
      = (211 : ℚ) / 10 := by
    unfold calculate_protein_requirements
    dsimp only
    simp only [Bool.false_and, Bool.false_eq_true, if_false, Option.getD_some]
    rw [show ((7047 : ℚ)/100 * (8/10) + 7047/100 * 1) / 2 / 3 = 21141/1000 by norm_num,
      round1_eq_low (21141/1000) 211 (by norm_num) (by norm_num)]
    norm_num
  have hmin : (calculate_protein_requirements (some (7047/100)) false false none).daily_protein_min_g
      = (564 : ℚ) / 10 := by
    unfold calculate_protein_requirements
    dsimp only
    simp only [Bool.false_and, Bool.false_eq_true, if_false, Option.getD_some]
    rw [show (7047 : ℚ)/100 * (8/10) = 56376/1000 by norm_num,
      round1_eq_high (56376/1000) 563 (by norm_num) (by norm_num)]
    norm_num
  have hmax : (calculate_protein_requirements (some (7047/100)) false false none).daily_protein_max_g
      = (705 : ℚ) / 10 := by
    unfold calculate_protein_requirements
    dsimp only
    simp only [Bool.false_and, Bool.false_eq_true, if_false, Option.getD_some]
    rw [show (7047 : ℚ)/100 * 1 = 7047/100 by norm_num,
      round1_eq_high (7047/100) 704 (by norm_num) (by norm_num)]
    norm_num
  rw [hlow, hmin, hmax,
    show ((564 : ℚ)/10 + 705/10) / 2 / 3 = 2115/100 by norm_num,
    round1_eq_tie_odd (2115/100) 211 (by norm_num) (by norm_num)]
  norm_num

/-- Claim C5 as amended: in every branch the per-meal protein equals the
midpoint of the unrounded daily bounds divided by 3, rounded to one
decimal; since the unrounded midpoint is weight times the (unrounded)
target grams-per-kg, the identity holds against the returned fields. -/
theorem per_meal_is_third_of_midpoint (w : Option ℚ) (ckd dm : Bool)
    (egfr : Option ℚ) :
    (calculate_protein_requirements w ckd dm egfr).per_meal_protein_g =
      round1 ((calculate_protein_requirements w ckd dm egfr).weight_kg *
        (calculate_protein_requirements w ckd dm egfr).target_grams_per_kg / 3) := by
  unfold calculate_protein_requirements
  dsimp only
  congr 1
  ring

/-- Claim C6 counterexample: for CKD with diabetes, eGFR 50 and weight
80 kg the code returns per-meal 18.7 g, which is not approximately
9.3 g even with a tolerance of two grams. -/
theorem scenario_c_per_meal_cex :
    (calculate_protein_requirements (some 80) true true (some 50)).per_meal_protein_g
      = 187/10 ∧
    ¬ ((calculate_protein_requirements (some 80) true true (some 50)).per_meal_protein_g
        - 93/10 < 2 ∧
      (93 : ℚ)/10 -
        (calculate_protein_requirements (some 80) true true (some 50)).per_meal_protein_g
        < 2) := by
  have hpm : (calculate_protein_requirements (some 80) true true (some 50)).per_meal_protein_g
      = (187 : ℚ) / 10 := by
    have hguard : (true && true && optLt (some (50 : ℚ)) 60) = true := by
      norm_num [optLt]
    unfold calculate_protein_requirements
    dsimp only
    rw [hguard]
    simp only [if_true, Option.getD_some]
    rw [show ((80 : ℚ) * (6/10) + 80 * (8/10)) / 2 / 3 = 56/3 by norm_num,
      round1_eq_high (56/3) 186 (by norm_num) (by norm_num)]
    norm_num
  rw [hpm]
  norm_num

/-- Claim C6 as amended: for CKD with diabetes, eGFR 50 and weight 80 kg
the protein calculation returns daily bounds 48.0 and 64.0 g and
per-meal 18.7 g. -/
theorem scenario_c_protein_values :
    (calculate_protein_requirements (some 80) true true (some 50)).daily_protein_min_g = 48 ∧
    (calculate_protein_requirements (some 80) true true (some 50)).daily_protein_max_g = 64 ∧
    (calculate_protein_requirements (some 80) true true (some 50)).per_meal_protein_g = 187/10 := by
  have hguard : (true && true && optLt (some (50 : ℚ)) 60) = true := by
    norm_num [optLt]
  unfold calculate_protein_requirements
  dsimp only
  rw [hguard]
  simp only [if_true, Option.getD_some]
  refine ⟨?_, ?_, ?_⟩
  · rw [show (80 : ℚ) * (6/10) = 48 by norm_num,
      round1_eq_low 48 480 (by norm_num) (by norm_num)]
    norm_num
  · rw [show (80 : ℚ) * (8/10) = 64 by norm_num,
      round1_eq_low 64 640 (by norm_num) (by norm_num)]
    norm_num
  · rw [show ((80 : ℚ) * (6/10) + 80 * (8/10)) / 2 / 3 = 56/3 by norm_num,
      round1_eq_high (56/3) 186 (by norm_num) (by norm_num)]
    norm_num

/-- Claim C7 (code bug): with a known eGFR of exactly 0 the classifier
produces the Stage 5 label, yet the assembled constraint carries a null
ckd_stage because the assembler tests the raw value for Python
truthiness instead of for None. -/
theorem zero_egfr_stage_dropped :
    profileEgfrZero.egfr = some 0 ∧
    classify_ckd_stage (some 0) =
      ("Stage 5 (Kidney Failure)", some CKDStage.STAGE_5) ∧
    Except.map (fun c => c.ckd_stage)
      (generate_clinical_constraints "t" profileEgfrZero) = Except.ok none := by
  refine ⟨rfl, by decide, rfl⟩

/-- Claim C8 counterexample: on the renal branch with hypertension false
(CKD true, eGFR 50, no serum potassium) the returned limit still carries
the override-reason text although no hypertension recommendation was
displaced. -/
theorem override_reason_without_displacement_cex :
    Except.map (fun r => r.1.override_reason)
      (resolve_potassium_conflict false true (some 50) none) =
      Except.ok (some "Renal safety overrides HTN potassium recommendation") := rfl

/-- Claim C8 as amended: the potassium limit carries an override reason
exactly when the renal hard-cap branch is taken (CKD flagged and a known
eGFR below 60), independently of hypertension; the sodium and phosphorus
limits never carry one. -/
theorem override_reason_iff_renal_branch (htn ckd : Bool) (egfr k : Option ℚ) :
    Except.map (fun r => r.1.override_reason.isSome)
      (resolve_potassium_conflict htn ckd egfr k) =
    Except.map (fun _ => ckd && optLt egfr 60)
      (resolve_potassium_conflict htn ckd egfr k) ∧
    (calculate_sodium_limit htn ckd egfr).override_reason = none ∧
    (calculate_phosphorus_limit ckd egfr).override_reason = none := by
  refine ⟨?_, ?_, ?_⟩
  · unfold resolve_potassium_conflict
    by_cases hg : (ckd && optLt egfr 60) = true
    · rw [if_pos hg]
      rcases k with _ | kv
      · simp [Except.map, renalPotassiumLimit, hg]
      · dsimp only
        by_cases h5 : 5 < kv
        · rw [if_pos h5]
          simp [Except.map, renalPotassiumLimit, hg]
        · rw [if_neg h5]
          simp [Except.map, renalPotassiumLimit, hg]
    · rw [if_neg hg]
      have hg' : (ckd && optLt egfr 60) = false := by
        simpa using hg
      cases htn
      · simp [Except.map, defaultPotassiumLimit, hg']
      · cases ckd
        · simp [Except.map, htnPotassiumLimit, hg']
        · rcases egfr with _ | e
          · rfl
          · dsimp only
            by_cases h60 : 60 ≤ e
            · rw [if_pos h60]
              simp [Except.map, htnPotassiumLimit, hg']
            · rw [if_neg h60]
              simp [Except.map, defaultPotassiumLimit, hg']
  · unfold calculate_sodium_limit
    split_ifs <;> rfl
  · unfold calculate_phosphorus_limit
    rcases egfr with _ | e
    · rfl
    · dsimp only
      split_ifs <;> rfl

/-- Claim C9 counterexample: with HbA1c 10 (above 9.0) but the
type2_diabetes flag unset, the assembled safety notes are empty, so no
glycemic-control alert is emitted. -/
theorem glycemic_note_requires_flag_cex :
    profileHighA1cNoDm.hba1c = some 10 ∧ (9 : ℚ) < 10 ∧
    profileHighA1cNoDm.medical_conditions.type2_diabetes = false ∧
    Except.map (fun c => c.safety_notes)
      (generate_clinical_constraints "t" profileHighA1cNoDm) =
      Except.ok ([] : List SafetyNote) :=
  ⟨rfl, by norm_num, rfl, rfl⟩

/-- Claim C9 as amended: whenever constraint assembly succeeds its
safety-note list carries a glycemic-control note exactly when the
type2_diabetes flag is set and the (defaulted) HbA1c exceeds 9.0. -/
theorem glycemic_note_iff_flag_and_threshold (now : String) (p : PatientProfile) :
    Except.map (fun c => c.safety_notes.any SafetyNote.isGlycemic)
      (generate_clinical_constraints now p) =
    Except.map
      (fun _ => p.medical_conditions.type2_diabetes && decide (9 < p.hba1c.getD 0))
      (generate_clinical_constraints now p) := by
  unfold generate_clinical_constraints
  cases h1 : resolve_potassium_conflict p.medical_conditions.hypertension
      p.medical_conditions.chronic_kidney_disease p.egfr p.potassium with
  | error m => rfl
  | ok x =>
    obtain ⟨l, recs⟩ := x
    cases h2 : resolve_food_restrictions p.medical_conditions.hypertension
        p.medical_conditions.chronic_kidney_disease p.egfr
        p.medical_conditions.hypothyroidism with
    | error m => rfl
    | ok y =>
      obtain ⟨pr, li, wa⟩ := y
      dsimp only [Except.map]
      rw [any_glycemic_eq]

/-- Claim C10: with hypothyroidism flagged and no other condition, the
assembled constraint has exactly one temporal warning (levothyroxine and
soy, with the four-hour timing text), exactly the soy and cruciferous
warning-severity restrictions, and empty prohibited and limited lists. -/
theorem hypothyroid_scenario (now : String) (p : PatientProfile)
    (hhy : p.medical_conditions.hypothyroidism = true)
    (hhtn : p.medical_conditions.hypertension = false)
    (hckd : p.medical_conditions.chronic_kidney_disease = false)
    (hdm : p.medical_conditions.type2_diabetes = false) :
    Except.map hypothyroidOutputsOk (generate_clinical_constraints now p) =
      Except.ok true := by
  obtain ⟨uid, mc, w, egfr, k, hb⟩ := p
  obtain ⟨htn, ckd, dm, hypo⟩ := mc
  dsimp only at hhy hhtn hckd hdm
  subst hhy hhtn hckd hdm
  rw [generate_eq_ok now uid ⟨false, false, false, true⟩ w egfr k hb
    defaultPotassiumLimit [] [] [] [soyRestriction, cruciferousRestriction]
    (potassium_no_htn_no_ckd_eq egfr k)
    (by simpa using food_no_htn_no_ckd_eq egfr true)]
  simp [Except.map, hypothyroidOutputsOk, soyRestriction, cruciferousRestriction,
    levothyroxineSoyWarning]

/-- Witness for claim C10 at the concrete hypothyroidism-only profile. -/
theorem hypothyroid_scenario_witness :
    profileHypothyroidOnly.medical_conditions.hypothyroidism = true ∧
    Except.map hypothyroidOutputsOk
      (generate_clinical_constraints "t" profileHypothyroidOnly) = Except.ok true :=
  ⟨rfl, hypothyroid_scenario "t" profileHypothyroidOnly rfl rfl rfl rfl⟩
